import Mathlib

/-!
Verification of the Forerunner Halo Infinite stat-tracker core against its
specification.  The TypeScript sources are shallowly embedded:

* pure computations (the career-progression calculator of `src/server.ts`,
  the binary token envelope of `src/auth.ts`) become Lean functions;
* JavaScript numbers become `Rat` (exact arithmetic; the source only performs
  `+`, `<` and `/` on them) or `Int` where the source treats them as integers;
* optional fields / optional chaining (`a?.b`) become `Option` with `Option.bind`,
  and the `??` null-coalescing operator becomes `Option.getD`;
* external effects (the crypto primitives, the network calls of the OAuth
  chain, the clock, the file system) become explicit parameters or state that
  is threaded through the functions, so that the control flow of the source is
  reproduced exactly.
-/

namespace Forerunner

/- =====================================================================
   Career progression calculator (src/server.ts, computeCareerProgression)
   ===================================================================== -/

/-- One entry of the career rank definition table (the elements of
`getCareerRanks(...).Ranks` in the source).  Every field is optional, mirroring
the optional-chaining accesses of the TypeScript; `RankTitle` stands for the
chained access `RankTitle?.Value`. -/
structure CareerRank where
  Rank : Option Int
  TierType : Option String
  RankTitle : Option String
  RankGrade : Option Int
  XpRequiredForRank : Option Rat
  RankLargeIcon : Option String

/-- The `CurrentProgress` object of a reward track. -/
structure TrackProgress where
  Rank : Option Int
  PartialProgress : Option Rat

/-- The reward track returned by `getPlayerCareerRank`. -/
structure RewardTrack where
  CurrentProgress : Option TrackProgress

/-- The `nextRank` preview produced by `computeCareerProgression`. -/
structure NextRankPreview where
  rank : Int
  tierType : String
  rankTitle : String
  rankTier : Int
  xpRequired : Rat
  iconPath : String
  iconUrl : Option String

/-- The snapshot produced by `computeCareerProgression`. -/
structure CareerProgression where
  currentRank : Int
  isHero : Bool
  tierType : String
  rankTitle : String
  rankTier : Int
  currentXp : Rat
  xpRequired : Rat
  rankProgress : Rat
  xpEarnedToDate : Rat
  totalXpRequired : Rat
  overallProgress : Rat
  totalRanks : Nat
  currentRankIconPath : String
  rankIconUrl : Option String
  nextRank : Option NextRankPreview

/-- Embedding of `computeCareerProgression` (src/server.ts lines 584-635).
The two `for` loops of the source become `List.foldl`. -/
def computeCareerProgression (rewardTrack : RewardTrack) (rankDefs : List CareerRank) :
    CareerProgression :=
  let rawRank : Int := (rewardTrack.CurrentProgress.bind (·.Rank)).getD 0
  let partialProgress : Rat := (rewardTrack.CurrentProgress.bind (·.PartialProgress)).getD 0
  -- Hero rank = 272 (0-indexed in API, but rank definitions use 1-based)
  let isHero : Bool := rawRank == 272
  let currentRank : Int := if isHero then 272 else rawRank + 1
  let currentRankDef : Option CareerRank := rankDefs.find? (fun r => r.Rank == some currentRank)
  let nextRankDef : Option CareerRank :=
    if isHero then none else rankDefs.find? (fun r => r.Rank == some (currentRank + 1))
  let xpRequired : Rat := (currentRankDef.bind (·.XpRequiredForRank)).getD 0
  -- XP earned to date: sum all ranks below current + partial progress
  let xpEarnedToDate : Rat := rankDefs.foldl
    (fun acc rd => if rd.Rank.getD 0 < currentRank then acc + (rd.XpRequiredForRank.getD 0) else acc)
    partialProgress
  -- Total XP across all ranks
  let totalXpRequired : Rat := rankDefs.foldl
    (fun acc rd => acc + (rd.XpRequiredForRank.getD 0)) 0
  { currentRank := currentRank
    isHero := isHero
    tierType := (currentRankDef.bind (·.TierType)).getD ""
    rankTitle := (currentRankDef.bind (·.RankTitle)).getD ""
    rankTier := (currentRankDef.bind (·.RankGrade)).getD 0
    currentXp := partialProgress
    xpRequired := xpRequired
    rankProgress := if 0 < xpRequired then partialProgress / xpRequired
                    else if isHero then 1 else 0
    xpEarnedToDate := xpEarnedToDate
    totalXpRequired := totalXpRequired
    overallProgress := if 0 < totalXpRequired then xpEarnedToDate / totalXpRequired else 0
    totalRanks := rankDefs.length
    currentRankIconPath := (currentRankDef.bind (·.RankLargeIcon)).getD ""
    rankIconUrl := none
    nextRank := nextRankDef.map (fun nd =>
      { rank := nd.Rank.getD (currentRank + 1)
        tierType := nd.TierType.getD ""
        rankTitle := nd.RankTitle.getD ""
        rankTier := nd.RankGrade.getD 0
        xpRequired := nd.XpRequiredForRank.getD 0
        iconPath := nd.RankLargeIcon.getD ""
        iconUrl := none }) }

/-- A rank-table entry carrying only a rank number and an XP cost, as used in
the testable properties of the spec. -/
def mkRank (r : Int) (xp : Rat) : CareerRank :=
  { Rank := some r, TierType := none, RankTitle := none, RankGrade := none,
    XpRequiredForRank := some xp, RankLargeIcon := none }

/-- A reward track with the given raw rank and partial progress. -/
def mkTrack (raw : Int) (pp : Rat) : RewardTrack :=
  { CurrentProgress := some { Rank := some raw, PartialProgress := some pp } }

/-- The three-rank table of the testable properties of the spec. -/
def specTable : List CareerRank := [mkRank 1 100, mkRank 2 200, mkRank 3 300]

/- =====================================================================
   Encrypted token storage (src/auth.ts, saveTokens / loadTokens)
   ===================================================================== -/

/-- The decrypted credential bundle (interface `StoredTokens` in src/auth.ts). -/
structure StoredTokens where
  refreshToken : String
  spartanToken : String
  spartanTokenExpiry : Int
  xuid : String
  xblToken : Option String
deriving DecidableEq

/-- Magic bytes of the binary envelope: the UTF-8 bytes of the string FS. -/
def MAGIC : List Nat := [70, 83]

/-- Format version byte. -/
def VERSION : Nat := 1

def MAGIC_LEN : Nat := 2
def VERSION_LEN : Nat := 1
def SALT_LEN : Nat := 16
def IV_LEN : Nat := 12
def TAG_LEN : Nat := 16
def HEADER_LEN : Nat := MAGIC_LEN + VERSION_LEN + SALT_LEN + IV_LEN + TAG_LEN

/-- The static associated data string bound to the format. -/
def AAD : List Nat := "filmshell-tokens-v1".toList.map Char.toNat

/-- The external cryptographic and serialization primitives used by
`saveTokens` and `loadTokens`, made explicit parameters of the embedding:
`aesGcmEncrypt key iv aad plain` returns `(ciphertext, authTag)`;
`aesGcmDecrypt key iv aad tag ct` returns `none` exactly when decryption or
authentication fails (the thrown exception of the source); `scrypt` is the
key-derivation function and `passphrase` the string
`hostname() + userInfo().username`; `stringifyTokens` / `parseTokens` model
`JSON.stringify` / `JSON.parse` on the UTF-8 plaintext, `parseTokens`
returning `none` when `JSON.parse` throws. -/
structure CryptoEnv where
  aesGcmEncrypt : List Nat → List Nat → List Nat → List Nat → List Nat × List Nat
  aesGcmDecrypt : List Nat → List Nat → List Nat → List Nat → List Nat → Option (List Nat)
  scrypt : String → List Nat → List Nat
  passphrase : String
  stringifyTokens : StoredTokens → List Nat
  parseTokens : List Nat → Option StoredTokens

/-- Embedding of `deriveKey` (src/auth.ts lines 61-64). -/
def deriveKey (E : CryptoEnv) (salt : List Nat) : List Nat :=
  E.scrypt E.passphrase salt

/-- Embedding of `saveTokens` (src/auth.ts lines 101-112): the byte string
written to the token file.  The random `salt` and `iv` produced by
`randomBytes` are parameters. -/
def saveTokens (E : CryptoEnv) (salt iv : List Nat) (tokens : StoredTokens) : List Nat :=
  let plaintext := E.stringifyTokens tokens
  let key := deriveKey E salt
  let ec := E.aesGcmEncrypt key iv AAD plaintext
  MAGIC ++ [VERSION] ++ salt ++ iv ++ ec.2 ++ ec.1

/-- The salt slice of an envelope: `buf.subarray(3, 19)`. -/
def envelopeSalt (buf : List Nat) : List Nat :=
  (buf.drop (MAGIC_LEN + VERSION_LEN)).take SALT_LEN

/-- The iv slice of an envelope: `buf.subarray(19, 31)`. -/
def envelopeIv (buf : List Nat) : List Nat :=
  ((buf.drop (MAGIC_LEN + VERSION_LEN)).drop SALT_LEN).take IV_LEN

/-- The auth-tag slice of an envelope: `buf.subarray(31, 47)`. -/
def envelopeTag (buf : List Nat) : List Nat :=
  (((buf.drop (MAGIC_LEN + VERSION_LEN)).drop SALT_LEN).drop IV_LEN).take TAG_LEN

/-- The ciphertext slice of an envelope: `buf.subarray(47)`. -/
def envelopeCiphertext (buf : List Nat) : List Nat :=
  (((buf.drop (MAGIC_LEN + VERSION_LEN)).drop SALT_LEN).drop IV_LEN).drop TAG_LEN

/-- The decryption step of `loadTokens`: derive the key from the stored salt
and run AES-256-GCM with the stored iv, AAD and auth tag. -/
def decryptPayload (E : CryptoEnv) (buf : List Nat) : Option (List Nat) :=
  E.aesGcmDecrypt (deriveKey E (envelopeSalt buf)) (envelopeIv buf) AAD
    (envelopeTag buf) (envelopeCiphertext buf)

/-- The try-block of `loadTokens` (src/auth.ts lines 79-94) on the bytes of
the token file: `none` models every thrown exception (file too short, bad
magic, unsupported version, decryption or authentication failure, JSON-parse
failure). -/
def parseTokenFile (E : CryptoEnv) (buf : List Nat) : Option StoredTokens :=
  if buf.length < HEADER_LEN then none
  else if buf.take MAGIC_LEN = MAGIC then
    if buf.getD MAGIC_LEN 0 = VERSION then
      match decryptPayload E buf with
      | none => none
      | some pt => E.parseTokens pt
    else none
  else none

/-- Embedding of `loadTokens` (src/auth.ts lines 76-99) with the file system
explicit: the input is the token file contents (`none` when the file does not
exist) and the output pairs the returned value with the file contents after
the call (the catch-block unlinks the file). -/
def loadTokens (E : CryptoEnv) (file : Option (List Nat)) :
    Option StoredTokens × Option (List Nat) :=
  match file with
  | none => (none, none)
  | some buf =>
    match parseTokenFile E buf with
    | some tokens => (some tokens, some buf)
    | none => (none, none)

/- =====================================================================
   OAuth / XSTS / Spartan token chain (src/auth.ts, authenticate and
   refreshAuthentication)
   ===================================================================== -/

/-- The OAuth token response (`requestOAuthToken` / `refreshOAuthToken`). -/
structure OAuthToken where
  access_token : Option String
  refresh_token : Option String
deriving DecidableEq

/-- The Xbox user token response (`requestUserToken`). -/
structure XboxUserToken where
  Token : Option String
deriving DecidableEq

/-- The first element of `DisplayClaims?.xui` of an XSTS token. -/
structure XuiClaim where
  xid : Option String
  uhs : Option String
deriving DecidableEq

/-- An XSTS token response; `xui0` stands for the chained access
`DisplayClaims?.xui?.[0]`. -/
structure XstsToken where
  Token : Option String
  xui0 : Option XuiClaim
deriving DecidableEq

/-- The Spartan token response (`getSpartanToken`). -/
structure SpartanTokenResponse where
  token : Option String
deriving DecidableEq

/-- The network responses consumed by one run of the token chain.  A field is
`none` when the corresponding call returned null/undefined; the inner
`Option` fields model absent properties of the responses. -/
structure AuthNetwork where
  oauthToken : Option OAuthToken
  userToken : Option XboxUserToken
  xboxXstsToken : Option XstsToken
  haloXstsToken : Option XstsToken
  spartanTokenResponse : Option SpartanTokenResponse
deriving DecidableEq

/-- The record returned by `authenticate` and `refreshAuthentication`. -/
structure AuthResult where
  spartanToken : String
  xuid : String
  refreshToken : String
  xblToken : String
deriving DecidableEq

/-- Embedding of `authenticate` (src/auth.ts lines 157-196).  The browser
launch and callback wait are part of obtaining `net.oauthToken`; each
JavaScript truthiness check `!x?.y` becomes a test against the empty string
after `Option`-chaining. -/
def authenticate (net : AuthNetwork) : Except String AuthResult :=
  if (net.oauthToken.bind (·.access_token)).getD "" = "" then
    .error "Failed to get OAuth access token"
  else if (net.userToken.bind (·.Token)).getD "" = "" then
    .error "Failed to get user token"
  else if (net.xboxXstsToken.bind (·.Token)).getD "" = "" then
    .error "Failed to get Xbox XSTS token"
  else
    let xuid := ((net.xboxXstsToken.bind (·.xui0)).bind (·.xid)).getD ""
    let userHash := ((net.xboxXstsToken.bind (·.xui0)).bind (·.uhs)).getD ""
    if xuid = "" ∨ userHash = "" then
      .error "Failed to get XUID/userHash from Xbox XSTS token"
    else if (net.haloXstsToken.bind (·.Token)).getD "" = "" then
      .error "Failed to get Halo XSTS token"
    else if (net.spartanTokenResponse.bind (·.token)).getD "" = "" then
      .error "Failed to get Spartan token"
    else
      .ok { spartanToken := (net.spartanTokenResponse.bind (·.token)).getD ""
            xuid := xuid
            refreshToken := (net.oauthToken.bind (·.refresh_token)).getD ""
            xblToken := "XBL3.0 x=" ++ userHash ++ ";" ++ (net.xboxXstsToken.bind (·.Token)).getD "" }

/-- Embedding of `refreshAuthentication` (src/auth.ts lines 198-240): the
same chain started from `refreshOAuthToken`; the returned refresh token falls
back to the old one (`oauthToken.refresh_token ?? refreshToken`). -/
def refreshAuthentication (net : AuthNetwork) (refreshToken : String) :
    Except String AuthResult :=
  if (net.oauthToken.bind (·.access_token)).getD "" = "" then
    .error "Failed to refresh OAuth token"
  else if (net.userToken.bind (·.Token)).getD "" = "" then
    .error "Failed to get user token"
  else if (net.xboxXstsToken.bind (·.Token)).getD "" = "" then
    .error "Failed to get Xbox XSTS token"
  else
    let xuid := ((net.xboxXstsToken.bind (·.xui0)).bind (·.xid)).getD ""
    let userHash := ((net.xboxXstsToken.bind (·.xui0)).bind (·.uhs)).getD ""
    if xuid = "" ∨ userHash = "" then
      .error "Failed to get XUID/userHash from Xbox XSTS token"
    else if (net.haloXstsToken.bind (·.Token)).getD "" = "" then
      .error "Failed to get Halo XSTS token"
    else if (net.spartanTokenResponse.bind (·.token)).getD "" = "" then
      .error "Failed to get Spartan token"
    else
      .ok { spartanToken := (net.spartanTokenResponse.bind (·.token)).getD ""
            xuid := xuid
            refreshToken := (net.oauthToken.bind (·.refresh_token)).getD refreshToken
            xblToken := "XBL3.0 x=" ++ userHash ++ ";" ++ (net.xboxXstsToken.bind (·.Token)).getD "" }

/- =====================================================================
   getOrCreateClient (src/auth.ts lines 246-322)
   ===================================================================== -/

/-- The configuration file contents (interface `Config`). -/
structure Config where
  clientId : String
  redirectUri : String
deriving DecidableEq

/-- The constructed `HaloInfiniteClient` handle, reduced to the fields the
source passes to its constructor. -/
structure HaloInfiniteClient where
  spartanToken : String
  xuid : String
  clearanceToken : Option String
deriving DecidableEq

/-- The value returned by `getOrCreateClient` (interface
`AuthenticatedClient`). -/
structure AuthenticatedClient where
  client : HaloInfiniteClient
  xuid : String
deriving DecidableEq

/-- The module-level mutable variables `cachedClient` and `cachedExpiry`. -/
structure AuthState where
  cachedClient : Option AuthenticatedClient
  cachedExpiry : Int
deriving DecidableEq

/-- The environment of one `getOrCreateClient` invocation: the clock (the
several `Date.now()` calls of one invocation are modeled by one instant),
the parsed config file (`none` when `loadConfig` throws), the result of
`loadTokens` (whose file-system behavior is modeled separately), the network
responses seen by the refresh and the interactive chains, and the flight id
returned by `getClearanceLevel` (`none` when that call did not succeed). -/
structure GocEnv where
  now : Int
  config : Option Config
  storedTokens : Option StoredTokens
  refreshNet : AuthNetwork
  authNet : AuthNetwork
  clearanceFlightId : Option String

/-- The observable outcome of one `getOrCreateClient` invocation: the
returned value (or thrown error), the module state afterwards, and the
bundles written through `saveTokens`, in order. -/
structure GocOutcome where
  result : Except String AuthenticatedClient
  state : AuthState
  savedTokens : List StoredTokens

/-- Lines 299-319 of src/auth.ts: build the client, upgrade it with the
clearance/flight token when `getClearanceLevel` succeeded with a truthy
`flightId`, and cache it. -/
def buildClient (env : GocEnv) (t : StoredTokens) : AuthenticatedClient :=
  let base : HaloInfiniteClient := { spartanToken := t.spartanToken, xuid := t.xuid, clearanceToken := none }
  match env.clearanceFlightId with
  | some fid =>
    if fid ≠ "" then
      { client := { spartanToken := t.spartanToken, xuid := t.xuid, clearanceToken := some fid }, xuid := t.xuid }
    else { client := base, xuid := t.xuid }
  | none => { client := base, xuid := t.xuid }

/-- The body of `getOrCreateClient` after the cache check (src/auth.ts lines
257-321).  Returns the result, the bundles saved, and the new cache state
(`none` when an error propagates before the cache assignment, leaving the
module variables untouched). -/
def getOrCreateClientMiss (env : GocEnv) :
    Except String AuthenticatedClient × List StoredTokens × Option AuthState :=
  match env.config with
  | none =>
    (.error "config.json not found. Copy config.example.json to config.json and set your client ID.",
     [], none)
  | some _ =>
    -- (tokens, bundles saved so far, needsAuth) after lines 259-282
    let step1 : Option StoredTokens × List StoredTokens × Bool :=
      match env.storedTokens with
      | some t =>
        if t.spartanToken ≠ "" ∧ t.refreshToken ≠ "" then
          if t.spartanTokenExpiry ≠ 0 ∧ env.now < t.spartanTokenExpiry - 300000 then
            (some t, [], false)
          else
            match refreshAuthentication env.refreshNet t.refreshToken with
            | .ok r =>
              let nt : StoredTokens :=
                { refreshToken := r.refreshToken, spartanToken := r.spartanToken,
                  spartanTokenExpiry := env.now + 3600000, xuid := r.xuid,
                  xblToken := some r.xblToken }
              (some nt, [nt], false)
            | .error _ => (some t, [], true)
        else (some t, [], true)
      | none => (none, [], true)
    if step1.2.2 then
      match authenticate env.authNet with
      | .error e => (.error e, step1.2.1, none)
      | .ok a =>
        let nt : StoredTokens :=
          { refreshToken := a.refreshToken, spartanToken := a.spartanToken,
            spartanTokenExpiry := env.now + 3600000, xuid := a.xuid,
            xblToken := some a.xblToken }
        let ac := buildClient env nt
        (.ok ac, step1.2.1 ++ [nt], some { cachedClient := some ac, cachedExpiry := nt.spartanTokenExpiry })
    else
      match step1.1 with
      | none => (.error "Authentication failed.", step1.2.1, none)
      | some t =>
        let ac := buildClient env t
        (.ok ac, step1.2.1, some { cachedClient := some ac, cachedExpiry := t.spartanTokenExpiry })

/-- Embedding of `getOrCreateClient` (src/auth.ts lines 249-322) as a state
transformer over the module variables. -/
def getOrCreateClient (env : GocEnv) (st : AuthState) : GocOutcome :=
  match st.cachedClient with
  | some c =>
    if env.now < st.cachedExpiry - 300000 then
      { result := .ok c, state := st, savedTokens := [] }
    else
      let m := getOrCreateClientMiss env
      { result := m.1, state := m.2.2.getD st, savedTokens := m.2.1 }
  | none =>
    let m := getOrCreateClientMiss env
    { result := m.1, state := m.2.2.getD st, savedTokens := m.2.1 }

/- =====================================================================
   OAuth callback listener (src/auth.ts, waitForAuthCode)
   ===================================================================== -/

/-- One incoming HTTP request to the callback server, reduced to the value of
`reqUrl.searchParams.get(code)`: `none` when the request carries no code
query parameter, `some v` (possibly empty) when it does. -/
structure CallbackRequest where
  code : Option String
deriving DecidableEq

/-- The page the request handler serves. -/
inductive ServedPage where
  | successPage : ServedPage
  | errorPage : ServedPage
deriving DecidableEq

/-- The listener state: waiting, or closed after resolving with a code. -/
inductive ListenerState where
  | listening : ListenerState
  | resolved : String → ListenerState
deriving DecidableEq

/-- Embedding of the request handler of `waitForAuthCode` (src/auth.ts lines
123-137) as a step relation: a truthy code resolves the promise and closes
the server; otherwise the handler serves the error page and keeps waiting.
A closed server serves nothing. -/
def handleCallbackRequest (s : ListenerState) (req : CallbackRequest) :
    ListenerState × Option ServedPage :=
  match s with
  | .resolved c => (.resolved c, none)
  | .listening =>
    match req.code with
    | some c =>
      if c ≠ "" then (.resolved c, some .successPage)
      else (.listening, some .errorPage)
    | none => (.listening, some .errorPage)

/-- The listener driven over a sequence of incoming requests. -/
def runListener : ListenerState → List CallbackRequest → ListenerState
  | s, [] => s
  | s, r :: rs => runListener (handleCallbackRequest s r).1 rs

/-- Embedding of the semantics of JavaScript `parseInt` on the strings a
WHATWG URL port component can hold (empty or decimal digits): the numeric
value of the leading digit run, `none` when there is none (`NaN`). -/
def parseIntJS (s : String) : Option Nat :=
  let ds := s.toList.takeWhile (·.isDigit)
  if ds = [] then none
  else some (ds.foldl (fun a c => a * 10 + (c.toNat - 48)) 0)

/-- Line 120 of src/auth.ts: `const port = parseInt(url.port) || 3000` — the
port the listener binds, as a function of the port component of the redirect
URI. -/
def listenerPort (portStr : String) : Nat :=
  match parseIntJS portStr with
  | none => 3000
  | some n => if n = 0 then 3000 else n

/- =====================================================================
   Concrete fixtures used by the witnesses
   ===================================================================== -/

/-- A credential bundle used by the storage witnesses. -/
def tokensFix : StoredTokens :=
  { refreshToken := "refresh", spartanToken := "spartan", spartanTokenExpiry := 0,
    xuid := "xuid", xblToken := none }

/-- A concrete instantiation of the external crypto primitives satisfying the
AEAD and codec contracts pointwise at the fixtures: the cipher passes the
plaintext through and authenticates with a constant tag, the codec maps every
byte string to `tokensFix`. -/
def cryptoFix : CryptoEnv :=
  { aesGcmEncrypt := fun _ _ _ m => (m, List.replicate 16 0)
    aesGcmDecrypt := fun _ _ _ t c => if t = List.replicate 16 0 then some c else none
    scrypt := fun _ _ => []
    passphrase := ""
    stringifyTokens := fun _ => [0]
    parseTokens := fun _ => some tokensFix }

/-- A network that answers nothing: every chain step fails. -/
def emptyNet : AuthNetwork :=
  { oauthToken := none, userToken := none, xboxXstsToken := none,
    haloXstsToken := none, spartanTokenResponse := none }

/-- A fully successful network whose OAuth response carries no refresh
token. -/
def netNoRefresh : AuthNetwork :=
  { oauthToken := some { access_token := some "at", refresh_token := none }
    userToken := some { Token := some "ut" }
    xboxXstsToken := some { Token := some "xt", xui0 := some { xid := some "xid", uhs := some "uhs" } }
    haloXstsToken := some { Token := some "ht", xui0 := none }
    spartanTokenResponse := some { token := some "sp" } }

/-- A fully successful network whose OAuth response rotates the refresh
token to the non-empty string rt2. -/
def netOk : AuthNetwork :=
  { oauthToken := some { access_token := some "at", refresh_token := some "rt2" }
    userToken := some { Token := some "ut" }
    xboxXstsToken := some { Token := some "xt", xui0 := some { xid := some "xid", uhs := some "uhs" } }
    haloXstsToken := some { Token := some "ht", xui0 := none }
    spartanTokenResponse := some { token := some "sp" } }

/-- A configuration fixture. -/
def configFix : Config := { clientId := "client", redirectUri := "http://localhost:3000/callback" }

/-- A cached client fixture. -/
def clientFix : AuthenticatedClient :=
  { client := { spartanToken := "sp", xuid := "xu", clearanceToken := none }, xuid := "xu" }

/-- Environment in which no credentials are stored and interactive
authentication succeeds without a refresh token. -/
def envNoRefresh : GocEnv :=
  { now := 0, config := some configFix, storedTokens := none,
    refreshNet := emptyNet, authNet := netNoRefresh, clearanceFlightId := none }

/-- Environment in which no credentials are stored and interactive
authentication succeeds, rotating the refresh token. -/
def envOk : GocEnv :=
  { now := 0, config := some configFix, storedTokens := none,
    refreshNet := emptyNet, authNet := netOk, clearanceFlightId := none }

/-- A stale stored bundle: non-empty tokens, expiry within the grace
window. -/
def staleTokensFix : StoredTokens :=
  { refreshToken := "oldref", spartanToken := "oldsp", spartanTokenExpiry := 1,
    xuid := "xu", xblToken := none }

/-- Environment in which the stored bundle is stale, the refresh exchange
fails (no network), and interactive authentication succeeds. -/
def envRefreshFail : GocEnv :=
  { now := 1000, config := some configFix, storedTokens := some staleTokensFix,
    refreshNet := emptyNet, authNet := netOk, clearanceFlightId := none }

/- =====================================================================
   Theorems
   ===================================================================== -/

/-- Helper: a fold that accumulates sums can have its initial value pulled
out. -/
theorem foldl_add_shift (g : CareerRank → Rat) (l : List CareerRank) (a : Rat) :
    l.foldl (fun acc rd => acc + g rd) a = a + l.foldl (fun acc rd => acc + g rd) 0 := by
  induction l generalizing a with
  | nil => simp
  | cons x xs ih =>
    simp only [List.foldl_cons]
    rw [ih (a + g x), ih (0 + g x)]
    ring

/-- Helper: the guarded fold of `computeCareerProgression` can have its
initial value pulled out. -/
theorem foldl_if_add_shift (c : Int) (l : List CareerRank) (a : Rat) :
    l.foldl (fun acc rd => if rd.Rank.getD 0 < c then acc + rd.XpRequiredForRank.getD 0 else acc) a
      = a + l.foldl (fun acc rd => if rd.Rank.getD 0 < c then acc + rd.XpRequiredForRank.getD 0 else acc) 0 := by
  induction l generalizing a with
  | nil => simp
  | cons x xs ih =>
    simp only [List.foldl_cons]
    by_cases h : x.Rank.getD 0 < c
    · simp only [if_pos h]
      rw [ih (a + _), ih (0 + _)]
      ring
    · simp only [if_neg h]
      exact ih a

/-- Helper: when every entry at rank 272 or above costs no XP, summing the
entries strictly below rank 272 equals summing the whole table. -/
theorem foldl_below_eq_total (l : List CareerRank)
    (h : ∀ rd ∈ l, (272 : Int) ≤ rd.Rank.getD 0 → rd.XpRequiredForRank.getD 0 = 0) :
    l.foldl (fun acc rd => if rd.Rank.getD 0 < 272 then acc + rd.XpRequiredForRank.getD 0 else acc) 0
      = l.foldl (fun acc rd => acc + rd.XpRequiredForRank.getD 0) 0 := by
  induction l with
  | nil => rfl
  | cons x xs ih =>
    have hx := h x (List.mem_cons_self x xs)
    have hxs : ∀ rd ∈ xs, (272 : Int) ≤ rd.Rank.getD 0 → rd.XpRequiredForRank.getD 0 = 0 :=
      fun rd hm => h rd (List.mem_cons_of_mem x hm)
    simp only [List.foldl_cons]
    rw [foldl_if_add_shift, foldl_add_shift, ih hxs]
    by_cases hlt : x.Rank.getD 0 < 272
    · simp [if_pos hlt]
    · rw [if_neg hlt, hx (le_of_not_lt hlt)]
      ring

/-- C3 counterexample: the claim that for the Hero rank both progress values
are 1.0 for every partial progress and every rank table is false.  With a
table whose rank-272 entry costs 100 XP and partial progress 50, the code
computes rankProgress 0.5; with a table holding only rank 1 at 100 XP and
partial progress 50, the code computes overallProgress 1.5. -/
theorem hero_progress_counterexample :
    (computeCareerProgression (mkTrack 272 50) [mkRank 272 100]).rankProgress ≠ 1 ∧
    (computeCareerProgression (mkTrack 272 50) [mkRank 1 100]).overallProgress ≠ 1 := by
  constructor <;>
    norm_num [computeCareerProgression, mkTrack, mkRank, List.find?, List.foldl]

/-- C3 (amended): for the sentinel Hero rank (raw rank 272), rankProgress is
1.0 regardless of partial progress provided every table entry at rank 272
carries no positive XP requirement; and overallProgress is 1.0 provided
additionally the partial progress is 0, every entry at rank 272 or above
costs 0 XP, and the table total is positive. -/
theorem hero_progress (rt : RewardTrack) (defs : List CareerRank)
    (h272 : (rt.CurrentProgress.bind (·.Rank)).getD 0 = 272)
    (hheroxp : ∀ rd ∈ defs, rd.Rank = some 272 → rd.XpRequiredForRank.getD 0 ≤ 0) :
    (computeCareerProgression rt defs).rankProgress = 1 ∧
    ((rt.CurrentProgress.bind (·.PartialProgress)).getD 0 = 0 →
     (∀ rd ∈ defs, (272 : Int) ≤ rd.Rank.getD 0 → rd.XpRequiredForRank.getD 0 = 0) →
     0 < defs.foldl (fun acc rd => acc + rd.XpRequiredForRank.getD 0) 0 →
     (computeCareerProgression rt defs).overallProgress = 1) := by
  have hxp : ((defs.find? (fun r => r.Rank == some 272)).bind (·.XpRequiredForRank)).getD 0 ≤ 0 := by
    cases hf : defs.find? (fun r => r.Rank == some 272) with
    | none => simp
    | some rd =>
      have hmem := List.mem_of_find?_eq_some hf
      have hpred := List.find?_some hf
      have hrank : rd.Rank = some 272 := by simpa using hpred
      simpa using hheroxp rd hmem hrank
  constructor
  · simp only [computeCareerProgression, h272]
    norm_num
    intro hpos
    exact absurd (lt_of_lt_of_le hpos hxp) (lt_irrefl 0)
  · intro hpp hz htot
    simp only [computeCareerProgression, h272, hpp]
    norm_num
    rw [foldl_below_eq_total defs hz, if_pos htot, div_self (ne_of_gt htot)]

/-- C3 witness: a Hero-rank track over a reference-shaped table (rank 1
costs 100 XP, the Hero entry costs 0) with zero partial progress yields both
progress values 1. -/
theorem hero_progress_witness :
    (computeCareerProgression (mkTrack 272 0) [mkRank 1 100, mkRank 272 0]).rankProgress = 1 ∧
    (computeCareerProgression (mkTrack 272 0) [mkRank 1 100, mkRank 272 0]).overallProgress = 1 := by
  have h := hero_progress (mkTrack 272 0) [mkRank 1 100, mkRank 272 0]
    (by decide) (by decide)
  exact ⟨h.1, h.2 (by decide) (by decide) (by norm_num [List.foldl, mkRank])⟩

/-- C7: on the spec table (ranks 1..3 costing 100/200/300 XP), raw rank 0
with partial progress 50 yields currentRank 1, xpEarnedToDate 50,
totalXpRequired 600, rankProgress 0.5 and overallProgress 50/600; raw rank 1
with partial progress 0 yields currentRank 2, xpEarnedToDate 100 and
rankProgress 0. -/
theorem spec_table_examples :
    (computeCareerProgression (mkTrack 0 50) specTable).currentRank = 1 ∧
    (computeCareerProgression (mkTrack 0 50) specTable).xpEarnedToDate = 50 ∧
    (computeCareerProgression (mkTrack 0 50) specTable).totalXpRequired = 600 ∧
    (computeCareerProgression (mkTrack 0 50) specTable).rankProgress = 1/2 ∧
    (computeCareerProgression (mkTrack 0 50) specTable).overallProgress = 50/600 ∧
    (computeCareerProgression (mkTrack 1 0) specTable).currentRank = 2 ∧
    (computeCareerProgression (mkTrack 1 0) specTable).xpEarnedToDate = 100 ∧
    (computeCareerProgression (mkTrack 1 0) specTable).rankProgress = 0 := by
  refine ⟨?_, ?_, ?_, ?_, ?_, ?_, ?_, ?_⟩ <;>
    norm_num [computeCareerProgression, mkTrack, specTable, mkRank, List.find?, List.foldl]

/-- C8: when the input is not the Hero sentinel and the table has no entry
for the computed current rank, the snapshot is still produced, with
xpRequired 0 and rankProgress 0. -/
theorem missing_entry_defaults (rt : RewardTrack) (defs : List CareerRank)
    (hraw : (rt.CurrentProgress.bind (·.Rank)).getD 0 ≠ 272)
    (hfind : defs.find? (fun r => r.Rank == some ((rt.CurrentProgress.bind (·.Rank)).getD 0 + 1)) = none) :
    (computeCareerProgression rt defs).xpRequired = 0 ∧
    (computeCareerProgression rt defs).rankProgress = 0 := by
  have hh : ((rt.CurrentProgress.bind (·.Rank)).getD 0 == (272 : Int)) = false := by
    simp [hraw]
  simp [computeCareerProgression, hh, hfind]

/-- C8 witness: raw rank 5 over the three-entry spec table (no rank-6
entry). -/
theorem missing_entry_witness :
    (computeCareerProgression (mkTrack 5 7) specTable).xpRequired = 0 ∧
    (computeCareerProgression (mkTrack 5 7) specTable).rankProgress = 0 :=
  missing_entry_defaults (mkTrack 5 7) specTable (by decide) (by rfl)

/-- C1: for every credential bundle, saving and loading round-trips: the
envelope written by saveTokens (magic FS, version 1, 16-byte salt, 12-byte
nonce, 16-byte auth tag, ciphertext) is parsed back by loadTokens into the
same bundle, given that the AEAD cipher decrypts what it encrypted, the tag
is 16 bytes, and the JSON codec round-trips the bundle. -/
theorem save_load_roundtrip (E : CryptoEnv) (B : StoredTokens) (salt iv : List Nat)
    (hsalt : salt.length = SALT_LEN) (hiv : iv.length = IV_LEN)
    (htag : (E.aesGcmEncrypt (deriveKey E salt) iv AAD (E.stringifyTokens B)).2.length = TAG_LEN)
    (hdec : E.aesGcmDecrypt (deriveKey E salt) iv AAD
        (E.aesGcmEncrypt (deriveKey E salt) iv AAD (E.stringifyTokens B)).2
        (E.aesGcmEncrypt (deriveKey E salt) iv AAD (E.stringifyTokens B)).1
        = some (E.stringifyTokens B))
    (hjson : E.parseTokens (E.stringifyTokens B) = some B) :
    (loadTokens E (some (saveTokens E salt iv B))).1 = some B := by
  have hbuf : saveTokens E salt iv B
      = 70 :: 83 :: 1 :: (salt ++ (iv ++ ((E.aesGcmEncrypt (deriveKey E salt) iv AAD (E.stringifyTokens B)).2
        ++ (E.aesGcmEncrypt (deriveKey E salt) iv AAD (E.stringifyTokens B)).1))) := by
    simp [saveTokens, MAGIC, VERSION]
  set ec := E.aesGcmEncrypt (deriveKey E salt) iv AAD (E.stringifyTokens B) with hec
  have hdrop3 : (saveTokens E salt iv B).drop (MAGIC_LEN + VERSION_LEN)
      = salt ++ (iv ++ (ec.2 ++ ec.1)) := by
    rw [hbuf]
    rfl
  have hsalt2 : envelopeSalt (saveTokens E salt iv B) = salt := by
    rw [envelopeSalt, hdrop3, show SALT_LEN = salt.length from hsalt.symm, List.take_left]
  have hrest1 : (salt ++ (iv ++ (ec.2 ++ ec.1))).drop SALT_LEN = iv ++ (ec.2 ++ ec.1) := by
    rw [show SALT_LEN = salt.length from hsalt.symm, List.drop_left]
  have hiv2 : envelopeIv (saveTokens E salt iv B) = iv := by
    rw [envelopeIv, hdrop3, hrest1, show IV_LEN = iv.length from hiv.symm, List.take_left]
  have hrest2 : (iv ++ (ec.2 ++ ec.1)).drop IV_LEN = ec.2 ++ ec.1 := by
    rw [show IV_LEN = iv.length from hiv.symm, List.drop_left]
  have htag2 : envelopeTag (saveTokens E salt iv B) = ec.2 := by
    rw [envelopeTag, hdrop3, hrest1, hrest2, show TAG_LEN = ec.2.length from htag.symm, List.take_left]
  have hct2 : envelopeCiphertext (saveTokens E salt iv B) = ec.1 := by
    rw [envelopeCiphertext, hdrop3, hrest1, hrest2, show TAG_LEN = ec.2.length from htag.symm, List.drop_left]
  have hlen : ¬ (saveTokens E salt iv B).length < HEADER_LEN := by
    rw [hbuf]
    simp only [List.length_cons, List.length_append, hsalt, hiv, htag,
      show SALT_LEN = 16 from rfl, show IV_LEN = 12 from rfl, show TAG_LEN = 16 from rfl,
      show HEADER_LEN = 47 from rfl]
    omega
  have hmagic : (saveTokens E salt iv B).take MAGIC_LEN = MAGIC := by
    rw [hbuf]
    rfl
  have hver : (saveTokens E salt iv B).getD MAGIC_LEN 0 = VERSION := by
    rw [hbuf]
    rfl
  have hdp : decryptPayload E (saveTokens E salt iv B) = some (E.stringifyTokens B) := by
    rw [decryptPayload, hsalt2, hiv2, htag2, hct2]
    exact hdec
  simp only [loadTokens, parseTokenFile, if_neg hlen, hmagic, hver, if_pos, hdp, hjson]

/-- C1 witness: a concrete crypto environment, bundle, salt and iv for which
the round trip evaluates. -/
theorem save_load_roundtrip_witness :
    (loadTokens cryptoFix (some (saveTokens cryptoFix (List.replicate 16 0) (List.replicate 12 0) tokensFix))).1
      = some tokensFix :=
  save_load_roundtrip cryptoFix tokensFix (List.replicate 16 0) (List.replicate 12 0)
    (by decide) (by decide) (by decide) (by decide) (by decide)

/-- C2: a token file whose bytes are not a valid envelope (too short, wrong
magic, unsupported version, failing decryption or authentication, or a
plaintext that does not parse) makes loadTokens return null and delete the
file. -/
theorem load_invalid_selfHeals (E : CryptoEnv) (buf : List Nat)
    (h : buf.length < HEADER_LEN ∨ buf.take MAGIC_LEN ≠ MAGIC ∨
         buf.getD MAGIC_LEN 0 ≠ VERSION ∨ decryptPayload E buf = none ∨
         ∃ pt, decryptPayload E buf = some pt ∧ E.parseTokens pt = none) :
    loadTokens E (some buf) = (none, none) := by
  have hp : parseTokenFile E buf = none := by
    unfold parseTokenFile
    by_cases h1 : buf.length < HEADER_LEN
    · rw [if_pos h1]
    · rw [if_neg h1]
      by_cases h2 : buf.take MAGIC_LEN = MAGIC
      · rw [if_pos h2]
        by_cases h3 : buf.getD MAGIC_LEN 0 = VERSION
        · rw [if_pos h3]
          rcases h with h4 | h4 | h4 | h4 | ⟨pt, hpt, hparse⟩
          · exact absurd h4 h1
          · exact absurd h2 h4
          · exact absurd h3 h4
          · rw [h4]
          · rw [hpt]
            exact hparse
        · rw [if_neg h3]
      · rw [if_neg h2]
  simp [loadTokens, hp]

/-- C2 witness: the empty byte string is shorter than the 47-byte header. -/
theorem load_invalid_selfHeals_witness :
    loadTokens cryptoFix (some []) = (none, none) :=
  load_invalid_selfHeals cryptoFix [] (Or.inl (by decide))

/-- C5: when the current time has reached the grace window of the cached
expiry, the cached handle is not returned: the invocation produces the same
result and the same writes as one that starts with an empty cache. -/
theorem stale_cache_ignored (env : GocEnv) (st : AuthState)
    (h : st.cachedExpiry - 300000 ≤ env.now) :
    (getOrCreateClient env st).result
      = (getOrCreateClient env { cachedClient := none, cachedExpiry := st.cachedExpiry }).result ∧
    (getOrCreateClient env st).savedTokens
      = (getOrCreateClient env { cachedClient := none, cachedExpiry := st.cachedExpiry }).savedTokens := by
  obtain ⟨cc, ce⟩ := st
  cases cc with
  | none => exact ⟨rfl, rfl⟩
  | some c =>
    have hnl : ¬ env.now < ce - 300000 := not_lt.mpr h
    simp only [getOrCreateClient, if_neg hnl]
    constructor <;> trivial

/-- C5 witness: a cached client whose expiry lies in the past is ignored and
the interactive path runs instead. -/
theorem stale_cache_ignored_witness :
    (getOrCreateClient envOk { cachedClient := some clientFix, cachedExpiry := 0 }).result
      = (getOrCreateClient envOk { cachedClient := none, cachedExpiry := 0 }).result ∧
    (getOrCreateClient envOk { cachedClient := some clientFix, cachedExpiry := 0 }).savedTokens
      = (getOrCreateClient envOk { cachedClient := none, cachedExpiry := 0 }).savedTokens :=
  stale_cache_ignored envOk { cachedClient := some clientFix, cachedExpiry := 0 } (by decide)

/-- C6: when the stored bundle is present with non-empty tokens, is within
the grace window, and the refresh exchange fails, the invocation behaves
exactly as if no bundle were stored — the failure escalates to interactive
authentication — and an error surfaces exactly when the interactive chain
fails, with that error. -/
theorem refresh_failure_escalates (env : GocEnv) (st : AuthState) (t : StoredTokens) (e : String)
    (hmiss : st.cachedClient = none)
    (hcfg : env.config.isSome)
    (hstored : env.storedTokens = some t)
    (hsp : t.spartanToken ≠ "") (hrt : t.refreshToken ≠ "")
    (hstale : ¬(t.spartanTokenExpiry ≠ 0 ∧ env.now < t.spartanTokenExpiry - 300000))
    (href : refreshAuthentication env.refreshNet t.refreshToken = .error e) :
    getOrCreateClient env st = getOrCreateClient { env with storedTokens := none } st ∧
    ∀ msg, ((getOrCreateClient env st).result = .error msg ↔ authenticate env.authNet = .error msg) := by
  obtain ⟨cfg, hc⟩ := Option.isSome_iff_exists.mp hcfg
  have hm : getOrCreateClientMiss env = getOrCreateClientMiss { env with storedTokens := none } := by
    simp only [getOrCreateClientMiss, hc, hstored, hsp, hrt, hstale, href]
    simp [hsp, hrt, hstale, href]
    cases authenticate env.authNet <;> rfl
  have hgoc : getOrCreateClient env st = getOrCreateClient { env with storedTokens := none } st := by
    simp only [getOrCreateClient, hmiss, hm]
  refine ⟨hgoc, fun msg => ?_⟩
  have hres : (getOrCreateClient env st).result = (getOrCreateClientMiss env).1 := by
    simp only [getOrCreateClient, hmiss]
  rw [hres]
  have hk : (getOrCreateClientMiss env).1
      = (match authenticate env.authNet with
         | .error e2 => .error e2
         | .ok a => .ok (buildClient env
             { refreshToken := a.refreshToken, spartanToken := a.spartanToken,
               spartanTokenExpiry := env.now + 3600000, xuid := a.xuid,
               xblToken := some a.xblToken })) := by
    simp [getOrCreateClientMiss, hc, hstored, hsp, hrt, hstale, href]
    cases authenticate env.authNet <;> rfl
  rw [hk]
  cases hA : authenticate env.authNet with
  | error e2 => simp
  | ok a => simp

/-- C6 witness: stale stored bundle, dead refresh network, successful
interactive chain. -/
theorem refresh_failure_escalates_witness :
    getOrCreateClient envRefreshFail { cachedClient := none, cachedExpiry := 0 }
      = getOrCreateClient { envRefreshFail with storedTokens := none }
          { cachedClient := none, cachedExpiry := 0 } ∧
    ((getOrCreateClient envRefreshFail { cachedClient := none, cachedExpiry := 0 }).result
        = .error "boom" ↔ authenticate envRefreshFail.authNet = .error "boom") := by
  have h := refresh_failure_escalates envRefreshFail { cachedClient := none, cachedExpiry := 0 }
    staleTokensFix "Failed to refresh OAuth token" rfl rfl rfl
    (by decide) (by decide) (by decide) rfl
  exact ⟨h.1, h.2 "boom"⟩

/-- Helper: the refresh token of a successful interactive chain is the OAuth
response refresh token, defaulted to the empty string. -/
theorem authenticate_ok_refreshToken (net : AuthNetwork) (a : AuthResult)
    (h : authenticate net = .ok a) :
    a.refreshToken = (net.oauthToken.bind (·.refresh_token)).getD "" := by
  simp only [authenticate] at h
  split_ifs at h with h1 h2 h3 h4 h5 h6
  all_goals try cases h
  all_goals rfl

/-- Helper: the refresh token of a successful refresh chain is the OAuth
response refresh token, defaulted to the previous refresh token. -/
theorem refreshAuthentication_ok_refreshToken (net : AuthNetwork) (old : String) (a : AuthResult)
    (h : refreshAuthentication net old = .ok a) :
    a.refreshToken = (net.oauthToken.bind (·.refresh_token)).getD old := by
  simp only [refreshAuthentication] at h
  split_ifs at h with h1 h2 h3 h4 h5 h6
  all_goals try cases h
  all_goals rfl

/-- C4 counterexample: a fully successful interactive authentication whose
OAuth response carries no refresh token writes a bundle whose refreshToken
is the empty string, so the claimed invariant fails. -/
theorem auth_empty_refreshToken_counterexample :
    (getOrCreateClient envNoRefresh { cachedClient := none, cachedExpiry := 0 }).result
      = .ok { client := { spartanToken := "sp", xuid := "xid", clearanceToken := none }, xuid := "xid" } ∧
    (getOrCreateClient envNoRefresh { cachedClient := none, cachedExpiry := 0 }).savedTokens
      = [{ refreshToken := "", spartanToken := "sp", spartanTokenExpiry := 3600000,
           xuid := "xid", xblToken := some "XBL3.0 x=uhs;xt" }] := by
  constructor <;> rfl

/-- C4 (amended): every bundle written by an invocation of getOrCreateClient
has a non-empty refreshToken, provided the interactive OAuth response
carries a non-empty refresh token, the refresh OAuth response does not
rotate to an explicitly empty refresh token, and any stored bundle has a
non-empty refresh token. -/
theorem saved_refreshToken_nonempty (env : GocEnv) (st : AuthState)
    (hauth1 : env.authNet.oauthToken.bind (·.refresh_token) ≠ none)
    (hauth2 : env.authNet.oauthToken.bind (·.refresh_token) ≠ some "")
    (hrefresh : env.refreshNet.oauthToken.bind (·.refresh_token) ≠ some "")
    (hstored : ∀ t, env.storedTokens = some t → t.refreshToken ≠ "") :
    ((getOrCreateClient env st).savedTokens.all fun b => b.refreshToken != "") = true := by
  have hA : ∀ a, authenticate env.authNet = .ok a → a.refreshToken ≠ "" := by
    intro a ha
    rw [authenticate_ok_refreshToken env.authNet a ha]
    cases hb : env.authNet.oauthToken.bind (·.refresh_token) with
    | none => exact absurd hb hauth1
    | some s =>
      simp only [Option.getD_some]
      intro hs
      exact hauth2 (by rw [hb, hs])
  have hR : ∀ t a, env.storedTokens = some t →
      refreshAuthentication env.refreshNet t.refreshToken = .ok a → a.refreshToken ≠ "" := by
    intro t a ht ha
    rw [refreshAuthentication_ok_refreshToken env.refreshNet t.refreshToken a ha]
    cases hb : env.refreshNet.oauthToken.bind (·.refresh_token) with
    | none => simpa using hstored t ht
    | some s =>
      simp only [Option.getD_some]
      intro hs
      exact hrefresh (by rw [hb, hs])
  have key : ((getOrCreateClientMiss env).2.1.all fun b => b.refreshToken != "") = true := by
    cases hc : env.config with
    | none => simp [getOrCreateClientMiss, hc]
    | some cfg =>
      cases hst : env.storedTokens with
      | none =>
        cases ha : authenticate env.authNet with
        | error e2 => simp [getOrCreateClientMiss, hc, hst, ha]
        | ok a => simp [getOrCreateClientMiss, hc, hst, ha, hA a ha]
      | some t =>
        by_cases hcred : t.spartanToken ≠ "" ∧ t.refreshToken ≠ ""
        · by_cases hfresh : t.spartanTokenExpiry ≠ 0 ∧ env.now < t.spartanTokenExpiry - 300000
          · simp [getOrCreateClientMiss, hc, hst, hcred, hfresh]
          · cases hr : refreshAuthentication env.refreshNet t.refreshToken with
            | ok r =>
              simp [getOrCreateClientMiss, hc, hst, hcred, hfresh, hr, hR t r hst hr]
            | error e2 =>
              cases ha : authenticate env.authNet with
              | error e3 => simp [getOrCreateClientMiss, hc, hst, hcred, hfresh, hr, ha]
              | ok a => simp [getOrCreateClientMiss, hc, hst, hcred, hfresh, hr, ha, hA a ha]
        · cases ha : authenticate env.authNet with
          | error e2 => simp [getOrCreateClientMiss, hc, hst, hcred, ha]
          | ok a => simp [getOrCreateClientMiss, hc, hst, hcred, ha, hA a ha]
  cases hcc : st.cachedClient with
  | none => simpa only [getOrCreateClient, hcc] using key
  | some c =>
    by_cases hlt : env.now < st.cachedExpiry - 300000
    · simp [getOrCreateClient, hcc, hlt]
    · simpa only [getOrCreateClient, hcc, if_neg hlt] using key

/-- C4 witness: with an OAuth response rotating to the non-empty token rt2,
every written bundle has a non-empty refresh token. -/
theorem saved_refreshToken_nonempty_witness :
    ((getOrCreateClient envOk { cachedClient := none, cachedExpiry := 0 }).savedTokens.all
      fun b => b.refreshToken != "") = true :=
  saved_refreshToken_nonempty envOk { cachedClient := none, cachedExpiry := 0 }
    (by decide) (by decide) (by decide) (fun t h => by cases h)

/-- C9 counterexample: a request whose URL carries the code query parameter
with an empty value (for example a callback to /?code=) is served the error
page and the listener keeps waiting, contradicting the claim that the first
request carrying a code parameter is served the success page and stops the
listener. -/
theorem listener_empty_code_counterexample :
    handleCallbackRequest .listening { code := some "" } = (.listening, some .errorPage) ∧
    handleCallbackRequest .listening { code := some "" } ≠ (.resolved "", some .successPage) := by
  constructor <;> decide

/-- C9 (amended): while listening, the first request carrying a non-empty
code parameter is served the success page, closes the listener and resolves
with that code; a request with no code parameter or an empty one is served
the error page and the listener keeps waiting, over any number of such
requests. -/
theorem listener_step_behavior :
    (∀ c : String, c ≠ "" →
      handleCallbackRequest .listening { code := some c } = (.resolved c, some .successPage)) ∧
    (∀ r : CallbackRequest, (r.code = none ∨ r.code = some "") →
      handleCallbackRequest .listening r = (.listening, some .errorPage)) ∧
    (∀ rs : List CallbackRequest, (∀ r ∈ rs, r.code = none ∨ r.code = some "") →
      runListener .listening rs = .listening) := by
  refine ⟨?_, ?_, ?_⟩
  · intro c hc
    simp [handleCallbackRequest, hc]
  · intro r h
    rcases h with h | h <;> simp [handleCallbackRequest, h]
  · intro rs h
    induction rs with
    | nil => rfl
    | cons r rest ih =>
      have hr := h r (List.mem_cons_self r rest)
      have hrest : ∀ x ∈ rest, x.code = none ∨ x.code = some "" :=
        fun x hx => h x (List.mem_cons_of_mem r hx)
      rcases hr with hr | hr <;>
        simp [runListener, handleCallbackRequest, hr, ih hrest]

/-- C9 witness: a request with a real code resolves; no-code and empty-code
requests leave the listener waiting. -/
theorem listener_step_behavior_witness :
    handleCallbackRequest .listening { code := some "authcode" }
      = (.resolved "authcode", some .successPage) ∧
    handleCallbackRequest .listening { code := none } = (.listening, some .errorPage) ∧
    runListener .listening [{ code := none }, { code := some "" }] = .listening :=
  ⟨listener_step_behavior.1 "authcode" (by decide),
   listener_step_behavior.2.1 { code := none } (Or.inl rfl),
   listener_step_behavior.2.2 [{ code := none }, { code := some "" }] (by decide)⟩

/-- C10 counterexample: the port string 0 is an explicit numeric port, yet
parseInt yields the falsy 0 and the listener binds port 3000, contradicting
the claim that an explicit numeric port is bound exactly. -/
theorem listener_port_zero_counterexample :
    parseIntJS "0" = some 0 ∧ listenerPort "0" = 3000 ∧ listenerPort "0" ≠ 0 := by
  refine ⟨?_, ?_, ?_⟩ <;> decide

/-- C10 (amended): a redirect URI port with no parseable digits falls back
to 3000, and an explicit numeric port is bound exactly unless it is 0, which
also falls back to 3000. -/
theorem listener_port_behavior :
    (∀ s : String, parseIntJS s = none → listenerPort s = 3000) ∧
    (∀ s : String, ∀ n : Nat, parseIntJS s = some n → n ≠ 0 → listenerPort s = n) := by
  constructor
  · intro s h
    simp [listenerPort, h]
  · intro s n h hn
    simp [listenerPort, h, hn]

/-- C10 witness: the empty port of a URI without a port component binds
3000; the port 8787 of the documented redirect URI binds 8787. -/
theorem listener_port_behavior_witness :
    listenerPort "" = 3000 ∧ listenerPort "8787" = 8787 :=
  ⟨listener_port_behavior.1 "" (by decide),
   listener_port_behavior.2 "8787" 8787 (by decide) (by decide)⟩

end Forerunner
